import Mathlib

/-!
Shallow embedding of the `djen-backup` pipeline core
(`src/djen_backup/{state,backfill,archive,retry,runner}.py`) and proofs
about its specification claims.

Conventions of the embedding:
* Python `date` objects become the `Date` structure below (year/month/day),
  compared chronologically (lexicographically on the fields), with
  `Date.isoformat` producing the `YYYY-MM-DD` key strings the code uses.
* Python dictionaries become insertion-ordered association lists.
* `async` methods are modelled as pure state-transformer functions; the
  per-object `asyncio.Lock` makes each method body atomic, so a run is a
  sequence of whole-method steps.  A call of an `async` function *without*
  `await` creates a coroutine object and never executes the body; where the
  code under analysis does this, the embedding models it explicitly (see
  `PyCoroutine`, `checkDate` and `processItem`).
* Monotonic-clock instants and the breaker's timeout values (Python floats
  whose arithmetic here is only `*2`, `min`, `-` and comparisons, and whose
  values in this program are whole seconds — exact in binary floating point)
  are modelled as `Int`.
* Raised exceptions are modelled with `Except PyExc`.
-/

/-- Python exception kinds that the embedded code can raise or catch. -/
inductive PyExc where
  | valueError
  | typeError
  | overflowError
  | attributeError
  deriving DecidableEq, Repr

/-- A calendar date, mirroring Python's `datetime.date` as used by the code
(construction, chronological comparison, `isoformat`). -/
structure Date where
  year : Nat
  month : Nat
  day : Nat
  deriving DecidableEq, Repr

/-- Chronological strict order on dates (Python `date.__lt__`):
lexicographic on (year, month, day). -/
def Date.ltb (a b : Date) : Bool :=
  if a.year ≠ b.year then a.year < b.year
  else if a.month ≠ b.month then a.month < b.month
  else a.day < b.day

/-- Left-pad a numeral string with zeros to the given width. -/
def padZeros (width : Nat) (n : Nat) : String :=
  let s := toString n
  String.mk (List.replicate (width - s.length) '0') ++ s

/-- Python `date.isoformat()`: `YYYY-MM-DD` with zero padding. -/
def Date.isoformat (d : Date) : String :=
  padZeros 4 d.year ++ "-" ++ padZeros 2 d.month ++ "-" ++ padZeros 2 d.day

/-- Gregorian leap-year test (as in Python's `datetime`). -/
def isLeapYear (y : Nat) : Bool :=
  y % 4 = 0 && (y % 100 ≠ 0 || y % 400 = 0)

/-- Days in a month of a given year (as in Python's `datetime`). -/
def daysInMonth (y m : Nat) : Nat :=
  if m = 2 then (if isLeapYear y then 29 else 28)
  else if m = 4 ∨ m = 6 ∨ m = 9 ∨ m = 11 then 30
  else 31

/-- Digit test for a character. -/
def isDigitChar (c : Char) : Bool := '0' ≤ c && c ≤ '9'

/-- Numeric value of a digit list (most significant first). -/
def digitsToNat (cs : List Char) : Nat :=
  cs.foldl (fun acc c => acc * 10 + (c.toNat - '0'.toNat)) 0

/-- Python `date.fromisoformat` restricted to the dashed `YYYY-MM-DD` form
the repository reads and writes (it always serialises with `isoformat`).
Returns `ValueError` on any malformed or out-of-range input, as Python does. -/
def dateFromIsoformat (s : String) : Except PyExc Date :=
  match s.toList with
  | [y1, y2, y3, y4, '-', m1, m2, '-', d1, d2] =>
      if isDigitChar y1 && isDigitChar y2 && isDigitChar y3 && isDigitChar y4 &&
         isDigitChar m1 && isDigitChar m2 && isDigitChar d1 && isDigitChar d2 then
        let y := digitsToNat [y1, y2, y3, y4]
        let m := digitsToNat [m1, m2]
        let d := digitsToNat [d1, d2]
        if 1 ≤ m && m ≤ 12 && 1 ≤ d && d ≤ daysInMonth y m && 1 ≤ y then
          Except.ok ⟨y, m, d⟩
        else
          Except.error PyExc.valueError
      else
        Except.error PyExc.valueError
  | _ => Except.error PyExc.valueError

-- ── Circuit breaker (archive.py, class CircuitBreaker) ───────────────

/-- `CircuitState` from archive.py. -/
inductive CircuitState where
  | closed
  | «open»
  | halfOpen
  deriving DecidableEq, Repr

/-- The mutable fields of `CircuitBreaker` (archive.py).  `threshold` and
`baseRecovery` are the constructor parameters; clock values are `Int`
instants of the monotonic clock. -/
structure CircuitBreaker where
  threshold : Int
  baseRecovery : Int
  recoveryTimeout : Int
  failureCount : Int
  state : CircuitState
  openedAt : Int
  deriving DecidableEq, Repr

/-- `CircuitBreaker.__init__(threshold, recovery_timeout)`. -/
def CircuitBreaker.init (threshold : Int) (recoveryTimeout : Int) : CircuitBreaker :=
  { threshold := threshold
    baseRecovery := recoveryTimeout
    recoveryTimeout := recoveryTimeout
    failureCount := 0
    state := CircuitState.closed
    openedAt := 0 }

/-- The `state` property (archive.py): lazily reports HALF_OPEN when the
stored state is OPEN and the recovery timeout has elapsed at instant `now`
(`time.monotonic() - self._opened_at >= self._recovery_timeout`). -/
def CircuitBreaker.observedState (cb : CircuitBreaker) (now : Int) : CircuitState :=
  if cb.state = CircuitState.open ∧ now - cb.openedAt ≥ cb.recoveryTimeout then
    CircuitState.halfOpen
  else
    cb.state

/-- `CircuitBreaker.allow_request` (archive.py): returns the admission
decision and the updated breaker.  On an observed HALF_OPEN it stores
`_state = HALF_OPEN` and returns True; on CLOSED returns True; on OPEN
returns False.  The whole body runs under the breaker's lock. -/
def CircuitBreaker.allowRequest (cb : CircuitBreaker) (now : Int) :
    Bool × CircuitBreaker :=
  match cb.observedState now with
  | CircuitState.closed => (true, cb)
  | CircuitState.halfOpen => (true, { cb with state := CircuitState.halfOpen })
  | CircuitState.open => (false, cb)

/-- `CircuitBreaker.record_success` (archive.py): resets the failure count,
closes the circuit and restores the base recovery timeout. -/
def CircuitBreaker.recordSuccess (cb : CircuitBreaker) : CircuitBreaker :=
  { cb with
      failureCount := 0
      state := CircuitState.closed
      recoveryTimeout := cb.baseRecovery }

/-- `CircuitBreaker.record_failure` (archive.py): increments the failure
count; from HALF_OPEN reopens with the timeout doubled and capped at 300 s;
from other states opens once the count reaches the threshold. -/
def CircuitBreaker.recordFailure (cb : CircuitBreaker) (now : Int) : CircuitBreaker :=
  let cb := { cb with failureCount := cb.failureCount + 1 }
  if cb.state = CircuitState.halfOpen then
    { cb with
        recoveryTimeout := min (cb.recoveryTimeout * 2) 300
        state := CircuitState.open
        openedAt := now }
  else if cb.failureCount ≥ cb.threshold then
    { cb with state := CircuitState.open, openedAt := now }
  else
    cb

-- ── IA-mirror state (state.py, class State) ──────────────────────────

/-- `ItemStatus` from state.py (a `StrEnum`; `.value` strings below). -/
inductive ItemStatus where
  | uploaded
  | absent
  deriving DecidableEq, Repr

/-- `ItemStatus.value` — the persisted string. -/
def ItemStatus.value : ItemStatus → String
  | ItemStatus.uploaded => "uploaded"
  | ItemStatus.absent => "absent"

/-- Insertion-ordered association-list update, mirroring Python
`dict[key] = value`: replaces in place when present, appends otherwise. -/
def assocSet {α : Type} (m : List (String × α)) (k : String) (v : α) :
    List (String × α) :=
  match m with
  | [] => [(k, v)]
  | (k', v') :: rest =>
      if k' = k then (k, v) :: rest else (k', v') :: assocSet rest k v

/-- Association-list lookup, mirroring Python `dict.get`. -/
def assocGet {α : Type} (m : List (String × α)) (k : String) : Option α :=
  match m with
  | [] => Option.none
  | (k', v') :: rest => if k' = k then some v' else assocGet rest k

/-- The `_entries` field of `State` (state.py):
`{"YYYY-MM-DD": {"TRIBUNAL": "uploaded" | "absent"}}`. -/
abbrev StateMap : Type := List (String × List (String × String))

/-- `State.get_done_tribunals(d)` (state.py): the tribunal keys recorded
under `d.isoformat()` (the body of the awaited coroutine). -/
def stateGetDoneTribunals (st : StateMap) (d : Date) : List String :=
  ((assocGet st d.isoformat).getD []).map Prod.fst

/-- `State.is_done(d, tribunal)` (state.py): membership of `tribunal` in the
entry for `d.isoformat()`. -/
def stateIsDone (st : StateMap) (d : Date) (tribunal : String) : Bool :=
  ((assocGet st d.isoformat).getD []).any (fun p => p.1 = tribunal)

/-- `State.mark(d, tribunal, status)` (state.py), the body of the awaited
coroutine: inserts `status.value` under `d.isoformat()`. -/
def stateMark (st : StateMap) (d : Date) (tribunal : String) (status : ItemStatus) :
    StateMap :=
  let key := d.isoformat
  let inner := (assocGet st key).getD []
  assocSet st key (assocSet inner tribunal status.value)

/-- `ia_state.get_status(d, tribunal)` as read by backfill.py — the value
stored for the pair, if any.  NOTE: `State` (state.py) defines **no**
method or attribute named `get_status`; this definition describes what the
entry table would answer, and `stateAttrNames` below records the actual
attribute table used to decide whether the call resolves. -/
def stateGetStatusValue (st : StateMap) (d : Date) (tribunal : String) :
    Option String :=
  assocGet ((assocGet st d.isoformat).getD []) tribunal

/-- The attributes defined on `class State` in state.py: its methods
(`get_done_tribunals`, `is_done`, `mark`, `prune`, `to_dict`, `from_dict`),
the `date_count` property, and the instance fields set in `__init__`. -/
def stateAttrNames : List String :=
  ["get_done_tribunals", "is_done", "date_count", "mark", "prune",
   "to_dict", "from_dict", "_entries", "_lock"]

-- ── Backfill progress (backfill.py) ──────────────────────────────────

/-- `STOP_THRESHOLD` from backfill.py. -/
def STOP_THRESHOLD : Int := 60

/-- `TribunalProgress` (backfill.py): the dataclass fields.
`empty_streak` is a Python `int`, hence `Int`. -/
structure TribunalProgress where
  cursorDate : Date
  emptyStreak : Int := 0
  stopped : Bool := false
  lastHitDate : Option Date := Option.none
  lastCheckedAt : Option String := Option.none
  lastResult : Option String := Option.none
  deriving DecidableEq, Repr

/-- The body of `BackfillState.record_hit` on one tribunal's progress
(backfill.py): reset the streak, remember the hit date and timestamp. -/
def recordHitProgress (p : TribunalProgress) (d : Date) (now : String) :
    TribunalProgress :=
  { p with
      emptyStreak := 0
      lastHitDate := some d
      lastResult := some "hit"
      lastCheckedAt := some now }

/-- The body of `BackfillState.record_empty` on one tribunal's progress
(backfill.py): increment the streak; when it reaches `STOP_THRESHOLD`,
set `stopped` in the same critical section and return `true`. -/
def recordEmptyProgress (p : TribunalProgress) (now : String) :
    TribunalProgress × Bool :=
  let p := { p with
      emptyStreak := p.emptyStreak + 1
      lastResult := some "empty"
      lastCheckedAt := some now }
  if p.emptyStreak ≥ STOP_THRESHOLD then
    ({ p with stopped := true }, true)
  else
    (p, false)

/-- The body of `BackfillState.record_error` on one tribunal's progress
(backfill.py): the streak is untouched. -/
def recordErrorProgress (p : TribunalProgress) (now : String) :
    TribunalProgress :=
  { p with lastResult := some "error", lastCheckedAt := some now }

/-- The `_tribunals` mapping of `BackfillState` (backfill.py). -/
abbrev BackfillMap : Type := List (String × TribunalProgress)

/-- `BackfillState.ensure_cursor_at_least(tribunal, min_date)`
(backfill.py): when the tribunal exists and its cursor predates `min_date`,
advance the cursor and — only when the tribunal was stopped — clear
`stopped` and reset the streak; report whether the cursor changed. -/
def ensureCursorAtLeast (m : BackfillMap) (tribunal : String) (minDate : Date) :
    BackfillMap × Bool :=
  match assocGet m tribunal with
  | Option.none => (m, false)
  | some p =>
      if p.cursorDate.ltb minDate then
        let p := { p with cursorDate := minDate }
        let p := if p.stopped then { p with stopped := false, emptyStreak := 0 } else p
        (assocSet m tribunal p, true)
      else
        (m, false)

/-- `BackfillState.reset_tribunal(tribunal)` (backfill.py). -/
def resetTribunal (m : BackfillMap) (tribunal : String) : BackfillMap × Bool :=
  match assocGet m tribunal with
  | Option.none => (m, false)
  | some p => (assocSet m tribunal { p with stopped := false, emptyStreak := 0 }, true)

-- ── Event model for C7 ───────────────────────────────────────────────

/-- One recorded observation on a tribunal's progress: the three mutating
calls a backfill run issues, each atomic under the `BackfillState` lock.
`hit` carries the hit date; every event carries the wall-clock timestamp
string the method would store. -/
inductive BfEvent where
  | empty (now : String)
  | hit (d : Date) (now : String)
  | error (now : String)
  deriving DecidableEq, Repr

/-- Apply one event to a progress record (the corresponding method body). -/
def applyBfEvent (p : TribunalProgress) (e : BfEvent) : TribunalProgress :=
  match e with
  | BfEvent.empty now => (recordEmptyProgress p now).1
  | BfEvent.hit d now => recordHitProgress p d now
  | BfEvent.error now => recordErrorProgress p now

/-- Apply a sequence of events in order. -/
def applyBfEvents (p : TribunalProgress) (es : List BfEvent) : TribunalProgress :=
  es.foldl applyBfEvent p

/-- Is the event a `record_hit`? -/
def BfEvent.isHit : BfEvent → Bool
  | BfEvent.hit _ _ => true
  | _ => false

/-- Is the event a `record_empty`? -/
def BfEvent.isEmpty : BfEvent → Bool
  | BfEvent.empty _ => true
  | _ => false

/-- The number of `record_empty` events after the most recent `record_hit`
(the whole sequence when no hit occurred): the specification's
"count of empties since last hit". -/
def emptiesSinceLastHit (es : List BfEvent) : Nat :=
  (es.reverse.takeWhile (fun e => ¬ e.isHit)).countP (fun e => e.isEmpty)

-- ── Retry layer (retry.py, request_with_retry) ───────────────────────

/-- `RETRIABLE_STATUS_CODES` from retry.py. -/
def RETRIABLE_STATUS_CODES : List Nat := [408, 429, 500, 502, 503, 504]

/-- The observable outcome of one wire-level attempt: a response with a
status code, or an `httpx.TransportError`. -/
inductive HttpAttempt where
  | resp (status : Nat)
  | transportError
  deriving DecidableEq, Repr

/-- The body of `request_with_retry`'s `for attempt in range(max_retries+1)`
loop (retry.py), started at loop index `attempt`.  The oracle gives the
outcome of each wire attempt; sleeping/backoff does not affect control flow
and is not modelled.  Returns the final outcome (`ok status`, or `error` for
a propagated transport exception) paired with the number of wire requests
issued from this point on. -/
def requestWithRetryFrom (oracle : Nat → HttpAttempt) (maxRetries : Nat)
    (retryDjen400 : Bool) (attempt : Nat) : Nat → Except Unit Nat × Nat
  | 0 => (Except.error (), 0)  -- dead: the loop always has fuel left
  | fuel + 1 =>
    match oracle attempt with
    | HttpAttempt.resp s =>
        if s ∈ RETRIABLE_STATUS_CODES then
          if attempt < maxRetries then
            let r := requestWithRetryFrom oracle maxRetries retryDjen400 (attempt + 1) fuel
            (r.1, r.2 + 1)
          else
            (Except.ok s, 1)
        else if retryDjen400 ∧ s = 400 then
          if attempt < maxRetries then
            let r := requestWithRetryFrom oracle maxRetries retryDjen400 (attempt + 1) fuel
            (r.1, r.2 + 1)
          else
            (Except.ok s, 1)
        else
          (Except.ok s, 1)
    | HttpAttempt.transportError =>
        if attempt < maxRetries then
          let r := requestWithRetryFrom oracle maxRetries retryDjen400 (attempt + 1) fuel
          (r.1, r.2 + 1)
        else
          (Except.error (), 1)

/-- `request_with_retry(client, method, url, max_retries, retry_djen_400, ...)`
(retry.py): run the attempt loop from index 0.  The fuel `maxRetries + 1`
equals the loop's iteration bound `range(max_retries + 1)`, so the dead
out-of-fuel branch is never taken. -/
def requestWithRetry (oracle : Nat → HttpAttempt) (maxRetries : Nat)
    (retryDjen400 : Bool) : Except Unit Nat × Nat :=
  requestWithRetryFrom oracle maxRetries retryDjen400 0 (maxRetries + 1)

-- ── MD5, hex and base64 (for archive.py uploads) ─────────────────────

/-- 2^32, the word modulus of MD5. -/
def UINT32 : Nat := 4294967296

/-- 32-bit left rotation. -/
def rotl32 (x n : Nat) : Nat :=
  ((x <<< n) % UINT32) ||| (x >>> (32 - n))

/-- 32-bit bitwise complement. -/
def not32 (x : Nat) : Nat := Nat.xor x 4294967295

/-- The per-round shift amounts of MD5 (RFC 1321). -/
def md5Shifts : List Nat :=
  [7, 12, 17, 22, 7, 12, 17, 22, 7, 12, 17, 22, 7, 12, 17, 22,
   5, 9, 14, 20, 5, 9, 14, 20, 5, 9, 14, 20, 5, 9, 14, 20,
   4, 11, 16, 23, 4, 11, 16, 23, 4, 11, 16, 23, 4, 11, 16, 23,
   6, 10, 15, 21, 6, 10, 15, 21, 6, 10, 15, 21, 6, 10, 15, 21]

/-- The sine-derived additive constants of MD5 (RFC 1321). -/
def md5Consts : List Nat :=
  [0xd76aa478, 0xe8c7b756, 0x242070db, 0xc1bdceee,
   0xf57c0faf, 0x4787c62a, 0xa8304613, 0xfd469501,
   0x698098d8, 0x8b44f7af, 0xffff5bb1, 0x895cd7be,
   0x6b901122, 0xfd987193, 0xa679438e, 0x49b40821,
   0xf61e2562, 0xc040b340, 0x265e5a51, 0xe9b6c7aa,
   0xd62f105d, 0x02441453, 0xd8a1e681, 0xe7d3fbc8,
   0x21e1cde6, 0xc33707d6, 0xf4d50d87, 0x455a14ed,
   0xa9e3e905, 0xfcefa3f8, 0x676f02d9, 0x8d2a4c8a,
   0xfffa3942, 0x8771f681, 0x6d9d6122, 0xfde5380c,
   0xa4beea44, 0x4bdecfa9, 0xf6bb4b60, 0xbebfbc70,
   0x289b7ec6, 0xeaa127fa, 0xd4ef3085, 0x04881d05,
   0xd9d4d039, 0xe6db99e5, 0x1fa27cf8, 0xc4ac5665,
   0xf4292244, 0x432aff97, 0xab9423a7, 0xfc93a039,
   0x655b59c3, 0x8f0ccc92, 0xffeff47d, 0x85845dd1,
   0x6fa87e4f, 0xfe2ce6e0, 0xa3014314, 0x4e0811a1,
   0xf7537e82, 0xbd3af235, 0x2ad7d2bb, 0xeb86d391]

/-- Little-endian byte rendering of `n` in `k` bytes. -/
def toLEBytes : Nat → Nat → List Nat
  | 0, _ => []
  | k + 1, n => n % 256 :: toLEBytes k (n / 256)

/-- Little-endian word value of a byte list. -/
def fromLEBytes (bs : List Nat) : Nat :=
  bs.foldr (fun b acc => acc * 256 + b) 0

/-- MD5 padding: append `0x80`, zero-fill to 56 mod 64, then the original
bit length as 8 little-endian bytes. -/
def md5Pad (msg : List Nat) : List Nat :=
  let bitLen := msg.length * 8
  let afterOne := msg.length + 1
  let zeros := (56 + 64 - afterOne % 64) % 64
  msg ++ [0x80] ++ List.replicate zeros 0 ++ toLEBytes 8 (bitLen % 2 ^ 64)

/-- Split a byte list into 64-byte blocks; structurally recursive on a fuel
bound that `chunks64` instantiates with the list length (each step consumes
at least one element, so the fuel never runs out). -/
def chunks64Fuel : Nat → List Nat → List (List Nat)
  | _, [] => []
  | 0, _ => []  -- dead: fuel ≥ length suffices
  | fuel + 1, l => l.take 64 :: chunks64Fuel fuel (l.drop 64)

/-- Split a byte list into 64-byte blocks. -/
def chunks64 (l : List Nat) : List (List Nat) :=
  chunks64Fuel l.length l

/-- One MD5 round on the running state, given the block's word accessor. -/
def md5Round (w : Nat → Nat) (st : Nat × Nat × Nat × Nat) (i : Nat) :
    Nat × Nat × Nat × Nat :=
  let (a, b, c, d) := st
  let (f, g) :=
    if i < 16 then ((b &&& c) ||| (not32 b &&& d), i)
    else if i < 32 then ((d &&& b) ||| (not32 d &&& c), (5 * i + 1) % 16)
    else if i < 48 then (Nat.xor (Nat.xor b c) d, (3 * i + 5) % 16)
    else (Nat.xor c (b ||| not32 d), (7 * i) % 16)
  let f := (f + a + md5Consts.getD i 0 + w g) % UINT32
  (d, (b + rotl32 f (md5Shifts.getD i 0)) % UINT32, b, c)

/-- Process one 64-byte block, updating the four-word digest state. -/
def md5Block (st : Nat × Nat × Nat × Nat) (block : List Nat) :
    Nat × Nat × Nat × Nat :=
  let w := fun g => fromLEBytes ((block.drop (4 * g)).take 4)
  let (a, b, c, d) := (List.range 64).foldl (md5Round w) st
  let (a0, b0, c0, d0) := st
  ((a0 + a) % UINT32, (b0 + b) % UINT32, (c0 + c) % UINT32, (d0 + d) % UINT32)

/-- The MD5 digest of a byte string, as 16 bytes (RFC 1321; Python's
`hashlib.md5(data).digest()`). -/
def md5 (msg : List Nat) : List Nat :=
  let st := (chunks64 (md5Pad msg)).foldl md5Block
    (0x67452301, 0xefcdab89, 0x98badcfe, 0x10325476)
  let (a, b, c, d) := st
  toLEBytes 4 a ++ toLEBytes 4 b ++ toLEBytes 4 c ++ toLEBytes 4 d

/-- Lowercase hexadecimal digit characters. -/
def hexDigits : List Char := "0123456789abcdef".toList

/-- Lowercase hex rendering of a byte list. -/
def bytesToHex (bs : List Nat) : String :=
  String.mk (bs.flatMap fun b => [hexDigits.getD (b / 16) '0', hexDigits.getD (b % 16) '0'])

/-- `_md5_hex(data)` (archive.py): `hashlib.md5(data).hexdigest()`. -/
def md5HexDigest (data : List Nat) : String :=
  bytesToHex (md5 data)

/-- The standard base64 alphabet. -/
def base64Alphabet : List Char :=
  "ABCDEFGHIJKLMNOPQRSTUVWXYZabcdefghijklmnopqrstuvwxyz0123456789+/".toList

/-- Standard base64 encoding of a byte list (what RFC 1864 requires of a
`Content-MD5` header: base64 of the 128-bit MD5 digest). -/
def base64Encode (bs : List Nat) : String :=
  String.mk (base64Chunks bs)
where
  /-- Encode successive 3-byte groups. -/
  base64Chunks : List Nat → List Char
    | [] => []
    | [b1] =>
        let n := b1 * 65536
        [base64Alphabet.getD (n / 262144 % 64) 'A',
         base64Alphabet.getD (n / 4096 % 64) 'A', '=', '=']
    | [b1, b2] =>
        let n := b1 * 65536 + b2 * 256
        [base64Alphabet.getD (n / 262144 % 64) 'A',
         base64Alphabet.getD (n / 4096 % 64) 'A',
         base64Alphabet.getD (n / 64 % 64) 'A', '=']
    | b1 :: b2 :: b3 :: rest =>
        let n := b1 * 65536 + b2 * 256 + b3
        base64Alphabet.getD (n / 262144 % 64) 'A' ::
        base64Alphabet.getD (n / 4096 % 64) 'A' ::
        base64Alphabet.getD (n / 64 % 64) 'A' ::
        base64Alphabet.getD (n % 64) 'A' :: base64Chunks rest

-- ── Archive upload requests (archive.py) ─────────────────────────────

/-- An outbound HTTP request as handed to `request_with_retry`. -/
structure HttpRequest where
  method : String
  url : String
  headers : List (String × String)
  content : List Nat
  deriving DecidableEq, Repr

/-- `_build_upload_headers(d, md5_hex, auth)` (archive.py). -/
def buildUploadHeaders (d : Date) (md5Hex : String) (auth : String) :
    List (String × String) :=
  [("Authorization", auth),
   ("Content-MD5", md5Hex),
   ("x-archive-auto-make-bucket", "1"),
   ("x-archive-queue-derive", "0"),
   ("x-archive-meta-collection", "opensource"),
   ("x-archive-meta-mediatype", "data"),
   ("x-archive-meta-title", "DJEN Data - " ++ d.isoformat),
   ("x-archive-meta-description",
    "Diario de Justica Eletronico Nacional - Judicial communications from Brazilian courts."),
   ("x-archive-meta-subject", "brazilian-law;djen;legal;judiciary;open-data"),
   ("x-archive-meta-creator", "CausaGanha"),
   ("x-archive-meta-date", d.isoformat)]

/-- The single PUT request that `upload_zip(client, d, tribunal, content,
auth)` (archive.py) hands to `request_with_retry`: URL
`https://s3.us.archive.org/djen-{date}/djen-{date}-{tribunal}.zip`, headers
from `_build_upload_headers` with `_md5_hex(content)`. -/
def uploadZipRequest (d : Date) (tribunal : String) (content : List Nat)
    (auth : String) : HttpRequest :=
  { method := "PUT"
    url := "https://s3.us.archive.org/djen-" ++ d.isoformat ++ "/djen-" ++
      d.isoformat ++ "-" ++ tribunal ++ ".zip"
    headers := buildUploadHeaders d (md5HexDigest content) auth
    content := content }

/-- `upload_zip` (archive.py) as observed on the wire: it issues its request
through `request_with_retry` (default `max_retries=3`), so the outcome and
the number of wire-level PUTs come from the retry loop. -/
def uploadZipWire (oracle : Nat → HttpAttempt) (d : Date) (tribunal : String)
    (content : List Nat) (auth : String) :
    HttpRequest × (Except Unit Nat × Nat) :=
  (uploadZipRequest d tribunal content auth, requestWithRetry oracle 3 false)

-- ── Python/JSON values for from_dict (backfill.py) ───────────────────

/-- A Python float as `json.loads` can produce it: finite, or the
non-finite constants `Infinity`, `-Infinity`, `NaN` that Python's JSON
parser accepts by default. -/
inductive PyFloat where
  | finite (q : Rat)
  | inf
  | ninf
  | nan
  deriving DecidableEq, Repr

/-- A Python value as deserialised by `json.loads` (dict keys from JSON are
always strings, hence `String` keys; the `isinstance(code, str)` guard in
`BackfillState.from_dict` is therefore always satisfied here). -/
inductive PyVal where
  | str (s : String)
  | int (n : Int)
  | float (f : PyFloat)
  | bool (b : Bool)
  | none
  | list (xs : List PyVal)
  | dict (xs : List (String × PyVal))

/-- Python truthiness, as used by `bool(...)` and `x if x else None`. -/
def PyVal.truthy : PyVal → Bool
  | PyVal.str s => s ≠ ""
  | PyVal.int n => n ≠ 0
  | PyVal.float (PyFloat.finite q) => q ≠ 0
  | PyVal.float _ => true
  | PyVal.bool b => b
  | PyVal.none => false
  | PyVal.list xs => ¬ xs.isEmpty
  | PyVal.dict xs => ¬ xs.isEmpty

/-- Python `str(...)` on the values `from_dict` can feed it.  The repository
only ever stores strings in `last_checked_at`/`last_result`, so only the
`str` case is exercised by real payloads; the remaining renderings follow
Python for the scalar cases and are inessential. -/
def PyVal.pyStr : PyVal → String
  | PyVal.str s => s
  | PyVal.int n => toString n
  | PyVal.float (PyFloat.finite q) => toString q
  | PyVal.float PyFloat.inf => "inf"
  | PyVal.float PyFloat.ninf => "-inf"
  | PyVal.float PyFloat.nan => "nan"
  | PyVal.bool b => if b then "True" else "False"
  | PyVal.none => "None"
  | PyVal.list _ => "[...]"
  | PyVal.dict _ => "{...}"

/-- `isinstance(x, str)`. -/
def PyVal.isStr : PyVal → Bool
  | PyVal.str _ => true
  | _ => false

/-- `isinstance(x, (int, float, str))` — Python's `bool` subclasses `int`,
so booleans satisfy the check. -/
def PyVal.isIntFloatStr : PyVal → Bool
  | PyVal.int _ => true
  | PyVal.float _ => true
  | PyVal.str _ => true
  | PyVal.bool _ => true
  | _ => false

/-- Truncation toward zero, as Python's `int(float)` does for finite floats. -/
def ratTruncate (q : Rat) : Int :=
  if q < 0 then -(Int.floor (-q)) else Int.floor q

/-- Parse a Python decimal integer literal (`int(str)`): optional
surrounding whitespace, optional sign, at least one digit.  (Underscore
separators and non-ASCII digits are not modelled; no claim input uses
them.) -/
def parseIntLiteral (s : String) : Except PyExc Int :=
  let cs := s.toList.dropWhile (· = ' ')
  let cs := (cs.reverse.dropWhile (· = ' ')).reverse
  let (sign, digits) :=
    match cs with
    | '-' :: rest => ((-1 : Int), rest)
    | '+' :: rest => ((1 : Int), rest)
    | rest => ((1 : Int), rest)
  if digits ≠ [] ∧ digits.all isDigitChar then
    Except.ok (sign * Int.ofNat (digitsToNat digits))
  else
    Except.error PyExc.valueError

/-- Python `int(x)` for `x` satisfying `isinstance(x, (int, float, str))`:
identity on ints, 0/1 on bools, truncation on finite floats, literal
parsing on strings; `OverflowError` on infinite floats and `ValueError`
on `NaN` — exactly as CPython raises them. -/
def pyIntOf : PyVal → Except PyExc Int
  | PyVal.int n => Except.ok n
  | PyVal.bool b => Except.ok (if b then 1 else 0)
  | PyVal.float (PyFloat.finite q) => Except.ok (ratTruncate q)
  | PyVal.float PyFloat.inf => Except.error PyExc.overflowError
  | PyVal.float PyFloat.ninf => Except.error PyExc.overflowError
  | PyVal.float PyFloat.nan => Except.error PyExc.valueError
  | PyVal.str s => parseIntLiteral s
  | _ => Except.error PyExc.typeError

/-- The `last_hit_date` statement of `TribunalProgress.from_dict`
(backfill.py): parse when a string (may raise `ValueError`), else `None`. -/
def lastHitStepOf (data : List (String × PyVal)) : Except PyExc (Option Date) :=
  match (assocGet data "last_hit_date").getD PyVal.none with
  | PyVal.str s => (dateFromIsoformat s).map some
  | _ => Except.ok Option.none

/-- The `empty_streak` statement of `TribunalProgress.from_dict`
(backfill.py): `int(raw)` when `isinstance(raw, (int, float, str))`,
else 0. -/
def streakStepOf (data : List (String × PyVal)) : Except PyExc Int :=
  let rawStreak := (assocGet data "empty_streak").getD (PyVal.int 0)
  if rawStreak.isIntFloatStr then pyIntOf rawStreak else Except.ok 0

/-- `TribunalProgress.from_dict(data)` (backfill.py), including the
exceptions it lets escape: `ValueError` for a missing/non-string
`cursor_date`, unparsable dates or streak strings; `OverflowError` or
`ValueError` from `int()` on non-finite floats.  Evaluation order follows
the Python source. -/
def tribunalProgressFromDict (data : List (String × PyVal)) :
    Except PyExc TribunalProgress :=
  match (assocGet data "cursor_date").getD PyVal.none with
  | PyVal.str cursorStr =>
      match lastHitStepOf data with
      | Except.error e => Except.error e
      | Except.ok lastHit =>
          match streakStepOf data with
          | Except.error e => Except.error e
          | Except.ok streak =>
              match dateFromIsoformat cursorStr with
              | Except.error e => Except.error e
              | Except.ok cursor =>
                  let lastChecked := (assocGet data "last_checked_at").getD PyVal.none
                  let lastResult := (assocGet data "last_result").getD PyVal.none
                  Except.ok
                    { cursorDate := cursor
                      emptyStreak := streak
                      stopped := ((assocGet data "stopped").getD (PyVal.bool false)).truthy
                      lastHitDate := lastHit
                      lastCheckedAt :=
                        if lastChecked.truthy then some lastChecked.pyStr else Option.none
                      lastResult :=
                        if lastResult.truthy then some lastResult.pyStr else Option.none }
  | _ => Except.error PyExc.valueError

/-- The entry loop of `BackfillState.from_dict` (backfill.py): each
tribunal entry whose parsing raises `ValueError` or `TypeError` is logged
and skipped; any other exception (e.g. `OverflowError`) escapes the
`except` clause and aborts the whole load. -/
def backfillEntriesFromDict (acc : BackfillMap) :
    List (String × PyVal) → Except PyExc BackfillMap
  | [] => Except.ok acc
  | (code, raw) :: rest =>
      match raw with
      | PyVal.dict d =>
          match tribunalProgressFromDict d with
          | Except.ok p => backfillEntriesFromDict (assocSet acc code p) rest
          | Except.error e =>
              if e = PyExc.valueError ∨ e = PyExc.typeError then
                backfillEntriesFromDict acc rest
              else
                Except.error e
      | _ => backfillEntriesFromDict acc rest

/-- `BackfillState.from_dict(data)` (backfill.py): ignore a missing or
non-dict `tribunals` field, otherwise fold the entries. -/
def backfillStateFromDict (data : List (String × PyVal)) :
    Except PyExc BackfillMap :=
  match (assocGet data "tribunals").getD PyVal.none with
  | PyVal.dict t => backfillEntriesFromDict [] t
  | _ => Except.ok []

/-- The entries `from_dict` is meant to retain, folded from a given
accumulator: those whose raw value is a dict that
`TribunalProgress.from_dict` parses successfully. -/
def goodBackfillEntriesFrom (acc : BackfillMap) (t : List (String × PyVal)) :
    BackfillMap :=
  t.foldl
    (fun acc cr =>
      match cr.2 with
      | PyVal.dict d =>
          match tribunalProgressFromDict d with
          | Except.ok p => assocSet acc cr.1 p
          | Except.error _ => acc
      | _ => acc)
    acc

/-- The entries `from_dict` is meant to retain. -/
def goodBackfillEntries (t : List (String × PyVal)) : BackfillMap :=
  goodBackfillEntriesFrom [] t

-- ── Scan-mode gap discovery and item processing (runner.py) ──────────

/-- `WorkItem` (runner.py). -/
structure WorkItem where
  date : Date
  tribunal : String
  deriving DecidableEq, Repr

/-- The result of *calling* an `async def` method: with `await` the body
runs and yields a value; without `await` the call only constructs a
coroutine object, and the body never executes. -/
inductive PyAsyncCall (α : Type) where
  | awaited (a : α)
  | coroutine
  deriving DecidableEq, Repr

/-- Python `set.__sub__`: defined between sets; applied to a coroutine
object (an un-awaited `async` call) it raises `TypeError`. -/
def pySetDiff (lhs : List String) (rhs : PyAsyncCall (List String)) :
    Except PyExc (List String) :=
  match rhs with
  | PyAsyncCall.awaited s => Except.ok (lhs.filter (fun t => ¬ s.contains t))
  | PyAsyncCall.coroutine => Except.error PyExc.typeError

/-- Insert into a string list kept in ascending order. -/
def insertSortedStr (x : String) : List String → List String
  | [] => [x]
  | y :: ys => if x < y then x :: y :: ys else y :: insertSortedStr x ys

/-- Python `sorted` on a list of strings. -/
def sortStrings (l : List String) : List String :=
  l.foldr insertSortedStr []

/-- `_check_date(client, d, tribunals, state, force_recheck, semaphore)`
(runner.py).  `iaListing` is what `fetch_ia_existing` would return for `d`.
Returns the emitted work items and the number of archive-metadata requests
issued, or the exception the body raises.

Faithful to the source, which calls the `async` methods
`state.get_done_tribunals(d)` (twice) and `state.mark(...)` **without**
`await`: the fast path binds `cached` to a coroutine object and
`tribunals - cached` raises `TypeError`; on the slow path the un-awaited
`mark` calls never execute, and the `all_done` conditional only evaluates
`set(ia_existing.keys())` when `force_recheck` is set. -/
def checkDate (st : StateMap) (d : Date) (tribunals : List String)
    (forceRecheck : Bool) (iaListing : List (String × String)) :
    Except PyExc (List WorkItem × Nat) :=
  let slowPath : Except PyExc (List WorkItem × Nat) :=
    -- one awaited `fetch_ia_existing(client, d)` under the semaphore
    -- `state.mark(d, tribunal, status)` per listing entry: no `await`, no effect
    if forceRecheck then
      let allDone := iaListing.map Prod.fst
      let gaps := tribunals.filter (fun t => ¬ allDone.contains t)
      Except.ok ((sortStrings gaps).map (fun t => WorkItem.mk d t), 1)
    else
      -- dead: the fast path below has already raised when ¬force_recheck
      match pySetDiff tribunals PyAsyncCall.coroutine with
      | Except.error e => Except.error e
      | Except.ok gaps => Except.ok ((sortStrings gaps).map (fun t => WorkItem.mk d t), 1)
  if ¬ forceRecheck then
    -- `cached = state.get_done_tribunals(d)`: missing `await`
    let cached : PyAsyncCall (List String) := PyAsyncCall.coroutine
    match pySetDiff tribunals cached with
    | Except.error e => Except.error e
    | Except.ok remaining =>
        if remaining.isEmpty then Except.ok ([], 0) else slowPath
  else slowPath

/-- What one `get_caderno_url`+`download_zip` pass yields for an item. -/
inductive FetchOutcome where
  | ok (content : List Nat)
  | notFound (status : Nat) (reason : String)
  | transportError
  deriving DecidableEq, Repr

/-- What one archive upload yields: a response, or `httpx.HTTPError`. -/
inductive UploadOutcome where
  | resp (status : Nat)
  | transportError
  deriving DecidableEq, Repr

/-- Terminal outcomes of `_process_item` (runner.py), by the summary
counter each branch increments. -/
inductive ItemOutcome where
  | skippedDeadline
  | skippedCircuit
  | dryRunUploaded
  | absentMarked
  | failed
  | uploaded
  deriving DecidableEq, Repr

/-- The I/O environment one `_process_item` call observes. -/
structure ItemEnv where
  now : Int
  fetch : FetchOutcome
  markerUpload : UploadOutcome
  zipUpload : UploadOutcome

/-- `_process_item(client, semaphore, breaker, item, state, config,
deadline, summary)` (runner.py), as the state transformer it performs on
the breaker and the mirror state.

Faithful to the source: both `state.mark(...)` calls lack `await`, so they
construct coroutines that never run — the mirror state is returned
unchanged on every path. -/
def processItem (env : ItemEnv) (breaker : CircuitBreaker) (item : WorkItem)
    (st : StateMap) (deadline : Int) (dryRun : Bool) :
    ItemOutcome × CircuitBreaker × StateMap :=
  if env.now > deadline - 30 then
    (ItemOutcome.skippedDeadline, breaker, st)
  else
    let (allowed, breaker) := breaker.allowRequest env.now
    if ¬ allowed then
      (ItemOutcome.skippedCircuit, breaker, st)
    else if dryRun then
      (ItemOutcome.dryRunUploaded, breaker, st)
    else
      match env.fetch with
      | FetchOutcome.notFound _ _ =>
          match env.markerUpload with
          | UploadOutcome.resp s =>
              if s < 400 then
                -- `state.mark(item.date, item.tribunal, ItemStatus.ABSENT)`:
                -- missing `await`, the mark never executes
                (ItemOutcome.absentMarked, breaker.recordSuccess, st)
              else
                (ItemOutcome.failed, breaker.recordFailure env.now, st)
          | UploadOutcome.transportError =>
              (ItemOutcome.failed, breaker.recordFailure env.now, st)
      | FetchOutcome.transportError =>
          (ItemOutcome.failed, breaker, st)
      | FetchOutcome.ok _ =>
          match env.zipUpload with
          | UploadOutcome.resp s =>
              if s < 400 then
                -- `state.mark(item.date, item.tribunal, ItemStatus.UPLOADED)`:
                -- missing `await`, the mark never executes
                (ItemOutcome.uploaded, breaker.recordSuccess, st)
              else
                (ItemOutcome.failed, breaker.recordFailure env.now, st)
          | UploadOutcome.transportError =>
              (ItemOutcome.failed, breaker.recordFailure env.now, st)

-- ── Backfill per-date processing (backfill.py) ───────────────────────

/-- Python attribute lookup on a `State` instance: names absent from the
class (and instance) attribute table raise `AttributeError`. -/
def stateGetAttr (name : String) : Except PyExc Unit :=
  if stateAttrNames.contains name then Except.ok ()
  else Except.error PyExc.attributeError

/-- `backfill_process_date(client, breaker, tribunal, d, config, bstate,
ia_state, summary)` (backfill.py).  Its first statement is
`status = ia_state.get_status(d, tribunal)` — but `State` (state.py)
defines no attribute `get_status` (see `stateAttrNames`), so the attribute
lookup raises `AttributeError` before anything else runs.  The fast-path
comparison below is therefore dead code, transcribed from the source text;
the network portion of the function is unreachable and not modelled. -/
def backfillProcessDate (ia : StateMap) (tribunal : String) (d : Date) :
    Except PyExc String := do
  let _ ← stateGetAttr "get_status"
  let status := stateGetStatusValue ia d tribunal
  if status = some "uploaded" then
    return "hit"
  else if status = some "absent" then
    return "empty"
  else
    return "error"

deriving instance DecidableEq for Except

-- ── Helper lemmas ────────────────────────────────────────────────────

theorem emptiesSinceLastHit_concat (es : List BfEvent) (e : BfEvent) :
    emptiesSinceLastHit (es ++ [e]) =
      if e.isHit then 0
      else emptiesSinceLastHit es + (if e.isEmpty then 1 else 0) := by
  unfold emptiesSinceLastHit
  rw [List.reverse_append]
  cases e <;>
    simp [BfEvent.isHit, BfEvent.isEmpty, List.takeWhile_cons, List.countP_cons]

theorem esh_concat_empty (es : List BfEvent) (now : String) :
    emptiesSinceLastHit (es ++ [BfEvent.empty now]) = emptiesSinceLastHit es + 1 := by
  rw [emptiesSinceLastHit_concat]; rfl

theorem esh_concat_hit (es : List BfEvent) (d : Date) (now : String) :
    emptiesSinceLastHit (es ++ [BfEvent.hit d now]) = 0 := by
  rw [emptiesSinceLastHit_concat]; rfl

theorem esh_concat_error (es : List BfEvent) (now : String) :
    emptiesSinceLastHit (es ++ [BfEvent.error now]) = emptiesSinceLastHit es := by
  rw [emptiesSinceLastHit_concat]; rfl

theorem applyBfEvents_concat (p : TribunalProgress) (es : List BfEvent) (e : BfEvent) :
    applyBfEvents p (es ++ [e]) = applyBfEvent (applyBfEvents p es) e := by
  unfold applyBfEvents
  rw [List.foldl_append]
  rfl

theorem streak_eq (p : TribunalProgress) (h0 : p.emptyStreak = 0)
    (es : List BfEvent) :
    (applyBfEvents p es).emptyStreak = (emptiesSinceLastHit es : Int) := by
  induction es using List.reverseRecOn with
  | nil => simpa [applyBfEvents, emptiesSinceLastHit]
  | append_singleton es e ih =>
      rw [applyBfEvents_concat, emptiesSinceLastHit_concat]
      cases e with
      | empty now =>
          simp only [applyBfEvent, recordEmptyProgress]
          split <;>
            simp [BfEvent.isHit, BfEvent.isEmpty, ih]
      | hit d now =>
          simp [applyBfEvent, recordHitProgress, BfEvent.isHit]
      | error now =>
          simp [applyBfEvent, recordErrorProgress, BfEvent.isHit, BfEvent.isEmpty, ih]

theorem exists_take_concat (es : List BfEvent) (e : BfEvent) :
    (∃ n, 60 ≤ emptiesSinceLastHit ((es ++ [e]).take n)) ↔
      (∃ n, 60 ≤ emptiesSinceLastHit (es.take n)) ∨
        60 ≤ emptiesSinceLastHit (es ++ [e]) := by
  constructor
  · rintro ⟨n, hn⟩
    rcases le_or_lt n es.length with h | h
    · exact Or.inl ⟨n, by rwa [List.take_append_of_le_length h] at hn⟩
    · right
      rwa [List.take_of_length_le (by simp; omega)] at hn
  · rintro (⟨n, hn⟩ | h)
    · rcases le_or_lt n es.length with hle | hlt
      · exact ⟨n, by rwa [List.take_append_of_le_length hle]⟩
      · refine ⟨es.length, ?_⟩
        rw [List.take_append_of_le_length le_rfl, List.take_length]
        rwa [List.take_of_length_le (Nat.le_of_lt hlt)] at hn
    · exact ⟨(es ++ [e]).length, by rwa [List.take_length]⟩

theorem stopped_iff (p : TribunalProgress) (h0 : p.emptyStreak = 0)
    (h1 : p.stopped = false) (es : List BfEvent) :
    ((applyBfEvents p es).stopped = true ↔
      ∃ n, 60 ≤ emptiesSinceLastHit (List.take n es)) := by
  induction es using List.reverseRecOn with
  | nil => simp [applyBfEvents, h1, emptiesSinceLastHit]
  | append_singleton es e ih =>
      rw [applyBfEvents_concat, exists_take_concat es e]
      cases e with
      | empty now =>
          have hs := streak_eq p h0 es
          rw [esh_concat_empty]
          simp only [applyBfEvent, recordEmptyProgress, STOP_THRESHOLD]
          split
          · rename_i hge
            constructor
            · intro _
              right
              omega
            · intro _; rfl
          · rename_i hlt
            rw [ih]
            constructor
            · exact Or.inl
            · rintro (h | h)
              · exact h
              · exfalso; omega
      | hit d now =>
          rw [esh_concat_hit]
          simp only [applyBfEvent, recordHitProgress]
          rw [ih]
          constructor
          · exact Or.inl
          · rintro (h | h)
            · exact h
            · omega
      | error now =>
          rw [esh_concat_error]
          simp only [applyBfEvent, recordErrorProgress]
          rw [ih]
          constructor
          · exact Or.inl
          · rintro (h | h)
            · exact h
            · exact ⟨es.length, by rwa [List.take_length]⟩

theorem dateFromIsoformat_error (s : String) (e : PyExc)
    (h : dateFromIsoformat s = Except.error e) : e = PyExc.valueError := by
  unfold dateFromIsoformat at h
  split at h
  · split at h
    · dsimp only at h
      split at h
      · simp at h
      · simp only [Except.error.injEq] at h
        exact h.symm
    · simp only [Except.error.injEq] at h
      exact h.symm
  · simp only [Except.error.injEq] at h
    exact h.symm

theorem pyIntOf_ne_attr (v : PyVal) : pyIntOf v ≠ Except.error PyExc.attributeError := by
  cases v with
  | float f => cases f <;> simp [pyIntOf]
  | str s =>
      simp only [pyIntOf, parseIntLiteral]
      split <;> simp
  | int n => simp [pyIntOf]
  | bool b => simp [pyIntOf]
  | none => simp [pyIntOf]
  | list xs => simp [pyIntOf]
  | dict xs => simp [pyIntOf]

theorem lastHitStepOf_ne_attr (data : List (String × PyVal)) :
    lastHitStepOf data ≠ Except.error PyExc.attributeError := by
  unfold lastHitStepOf
  split
  · rename_i s heq
    rcases hd : dateFromIsoformat s with e | d'
    · have := dateFromIsoformat_error s e hd
      subst this
      simp [hd, Except.map]
    · simp [hd, Except.map]
  · simp

theorem streakStepOf_ne_attr (data : List (String × PyVal)) :
    streakStepOf data ≠ Except.error PyExc.attributeError := by
  unfold streakStepOf
  dsimp only
  split
  · exact pyIntOf_ne_attr _
  · simp

theorem tribunalProgressFromDict_ne_attr (data : List (String × PyVal)) :
    tribunalProgressFromDict data ≠ Except.error PyExc.attributeError := by
  unfold tribunalProgressFromDict
  split
  · rename_i cursorStr heq
    rcases hlh : lastHitStepOf data with e | lh
    · intro hcon
      simp only [hlh, Except.error.injEq] at hcon
      exact lastHitStepOf_ne_attr data (hcon ▸ hlh)
    · rcases hst : streakStepOf data with e | k
      · intro hcon
        simp only [hlh, hst, Except.error.injEq] at hcon
        exact streakStepOf_ne_attr data (hcon ▸ hst)
      · rcases hc : dateFromIsoformat cursorStr with e | c
        · intro hcon
          simp only [hlh, hst, hc, Except.error.injEq] at hcon
          subst hcon
          have := dateFromIsoformat_error _ _ hc
          simp at this
        · simp [hlh, hst, hc]
  · simp

theorem backfillEntries_eq (t : List (String × PyVal))
    (hfin : ∀ cr ∈ t, ∀ d, cr.2 = PyVal.dict d →
      tribunalProgressFromDict d ≠ Except.error PyExc.overflowError) :
    ∀ acc, backfillEntriesFromDict acc t = Except.ok (goodBackfillEntriesFrom acc t) := by
  induction t with
  | nil => intro acc; rfl
  | cons cr rest ih =>
      intro acc
      obtain ⟨code, raw⟩ := cr
      have hrest : ∀ cr ∈ rest, ∀ d, cr.2 = PyVal.dict d →
          tribunalProgressFromDict d ≠ Except.error PyExc.overflowError :=
        fun cr hcr => hfin cr (List.mem_cons_of_mem _ hcr)
      cases raw with
      | dict d =>
          rcases hp : tribunalProgressFromDict d with e | p
          · have hne_of : e ≠ PyExc.overflowError := by
              intro he
              exact hfin (code, PyVal.dict d) (List.mem_cons_self _ _) d rfl (he ▸ hp)
            have hne_attr : e ≠ PyExc.attributeError := by
              intro he
              exact tribunalProgressFromDict_ne_attr d (he ▸ hp)
            simp only [backfillEntriesFromDict, goodBackfillEntriesFrom, List.foldl_cons, hp]
            cases e with
            | valueError => simpa [goodBackfillEntriesFrom] using ih hrest acc
            | typeError => simpa [goodBackfillEntriesFrom] using ih hrest acc
            | overflowError => exact absurd rfl hne_of
            | attributeError => exact absurd rfl hne_attr
          · simp only [backfillEntriesFromDict, goodBackfillEntriesFrom, List.foldl_cons, hp]
            simpa [goodBackfillEntriesFrom] using ih hrest (assocSet acc code p)
      | str s =>
          simp only [backfillEntriesFromDict, goodBackfillEntriesFrom, List.foldl_cons]
          simpa [goodBackfillEntriesFrom] using ih hrest acc
      | int n =>
          simp only [backfillEntriesFromDict, goodBackfillEntriesFrom, List.foldl_cons]
          simpa [goodBackfillEntriesFrom] using ih hrest acc
      | float f =>
          simp only [backfillEntriesFromDict, goodBackfillEntriesFrom, List.foldl_cons]
          simpa [goodBackfillEntriesFrom] using ih hrest acc
      | bool b =>
          simp only [backfillEntriesFromDict, goodBackfillEntriesFrom, List.foldl_cons]
          simpa [goodBackfillEntriesFrom] using ih hrest acc
      | none =>
          simp only [backfillEntriesFromDict, goodBackfillEntriesFrom, List.foldl_cons]
          simpa [goodBackfillEntriesFrom] using ih hrest acc
      | list xs =>
          simp only [backfillEntriesFromDict, goodBackfillEntriesFrom, List.foldl_cons]
          simpa [goodBackfillEntriesFrom] using ih hrest acc

theorem retryFrom_count_le (oracle : Nat → HttpAttempt) (m : Nat) (b : Bool) :
    ∀ fuel attempt, (requestWithRetryFrom oracle m b attempt fuel).2 ≤ fuel := by
  intro fuel
  induction fuel with
  | zero => intro attempt; simp [requestWithRetryFrom]
  | succ fuel ih =>
      intro attempt
      unfold requestWithRetryFrom
      cases oracle attempt with
      | resp s =>
          dsimp only
          split_ifs <;> simp <;> exact ih _
      | transportError =>
          dsimp only
          split_ifs <;> simp <;> exact ih _

theorem retryFrom_succ (oracle : Nat → HttpAttempt) (m : Nat) (b : Bool)
    (attempt fuel : Nat) :
    requestWithRetryFrom oracle m b attempt (fuel + 1) =
      match oracle attempt with
      | HttpAttempt.resp s =>
          if s ∈ RETRIABLE_STATUS_CODES then
            if attempt < m then
              ((requestWithRetryFrom oracle m b (attempt + 1) fuel).1,
               (requestWithRetryFrom oracle m b (attempt + 1) fuel).2 + 1)
            else (Except.ok s, 1)
          else if b ∧ s = 400 then
            if attempt < m then
              ((requestWithRetryFrom oracle m b (attempt + 1) fuel).1,
               (requestWithRetryFrom oracle m b (attempt + 1) fuel).2 + 1)
            else (Except.ok s, 1)
          else (Except.ok s, 1)
      | HttpAttempt.transportError =>
          if attempt < m then
            ((requestWithRetryFrom oracle m b (attempt + 1) fuel).1,
             (requestWithRetryFrom oracle m b (attempt + 1) fuel).2 + 1)
          else (Except.error (), 1) := rfl

theorem retryFrom_step (oracle : Nat → HttpAttempt) (m : Nat) (b : Bool)
    (attempt fuel : Nat) (h : attempt < m)
    (hr : match oracle attempt with
          | HttpAttempt.resp s => s ∈ RETRIABLE_STATUS_CODES ∨ (b ∧ s = 400)
          | HttpAttempt.transportError => True) :
    requestWithRetryFrom oracle m b attempt (fuel + 1) =
      ((requestWithRetryFrom oracle m b (attempt + 1) fuel).1,
       (requestWithRetryFrom oracle m b (attempt + 1) fuel).2 + 1) := by
  rw [retryFrom_succ]
  cases ho : oracle attempt with
  | resp s =>
      rw [ho] at hr
      dsimp only
      rcases hr with h1 | ⟨hb, h4⟩
      · rw [if_pos h1, if_pos h]
      · subst h4
        by_cases h1 : (400 : Nat) ∈ RETRIABLE_STATUS_CODES
        · rw [if_pos h1, if_pos h]
        · rw [if_neg h1, if_pos ⟨hb, rfl⟩, if_pos h]
  | transportError =>
      dsimp only
      rw [if_pos h]

theorem retryFrom_last (oracle : Nat → HttpAttempt) (m : Nat) (b : Bool) (fuel : Nat) :
    requestWithRetryFrom oracle m b m (fuel + 1) =
      (match oracle m with
       | HttpAttempt.resp s => (Except.ok s, 1)
       | HttpAttempt.transportError => (Except.error (), 1)) := by
  rw [retryFrom_succ]
  cases ho : oracle m with
  | resp s =>
      dsimp only
      split_ifs with h1 h2 h3 h4 <;>
        first
          | rfl
          | exact absurd h2 (Nat.lt_irrefl m)
          | exact absurd h3 (Nat.lt_irrefl m)
          | exact absurd h4 (Nat.lt_irrefl m)
  | transportError =>
      dsimp only
      rw [if_neg (Nat.lt_irrefl m)]

-- ── Claim theorems ───────────────────────────────────────────────────

/-- Claim C1 (code_bug): in backfill mode the claimed fast path never runs.
The first statement of `backfill_process_date` is
`status = ia_state.get_status(d, tribunal)`, but `State` (state.py) defines
no attribute `get_status`, so the call raises `AttributeError` before any
state is read — it neither records a hit and returns "hit" for an
`uploaded` mirror entry nor records an empty and returns "empty" for an
`absent` one. -/
theorem backfill_process_date_raises_attribute_error :
    stateAttrNames.contains "get_status" = false ∧
    backfillProcessDate [("2024-01-15", [("TJSP", "uploaded")])] "TJSP" ⟨2024, 1, 15⟩ =
      Except.error PyExc.attributeError ∧
    backfillProcessDate [("2024-01-15", [("TJSP", "absent")])] "TJSP" ⟨2024, 1, 15⟩ =
      Except.error PyExc.attributeError := by
  exact ⟨rfl, rfl, rfl⟩

/-- Claim C2 (code_bug): the gap-discovery cache short-circuit crashes
instead of short-circuiting.  With `force_recheck` false, `_check_date`
binds `cached` to the coroutine returned by the un-awaited
`state.get_done_tribunals(d)` and `tribunals - cached` raises `TypeError`
— even when the mirror covers every tribunal of the date, as in the claim's
scenario ({TJSP, TJRJ}@2024-01-15 all uploaded). -/
theorem check_date_raises_type_error :
    checkDate [("2024-01-15", [("TJRJ", "uploaded"), ("TJSP", "uploaded")])]
      ⟨2024, 1, 15⟩ ["TJRJ", "TJSP"] false [] = Except.error PyExc.typeError ∧
    checkDate [] ⟨2024, 1, 15⟩ ["TJSP"] false [("TJSP", "uploaded")] =
      Except.error PyExc.typeError := by
  exact ⟨rfl, rfl⟩

/-- Claim C3 (code_bug): on a scan-mode ZIP upload with status < 400 the
item processor records a breaker success and ends with outcome `uploaded`,
but its `state.mark(item.date, item.tribunal, ItemStatus.UPLOADED)` call
lacks `await`, so the coroutine never runs: the mirror state is unchanged
and `is_done(D, T)` is still false afterwards. -/
theorem process_item_upload_success_leaves_mirror_unmarked :
    (processItem ⟨0, FetchOutcome.ok [80, 75], UploadOutcome.resp 200, UploadOutcome.resp 200⟩
      (CircuitBreaker.init 5 60) ⟨⟨2024, 1, 15⟩, "TJSP"⟩ [] 1000 false).1 =
      ItemOutcome.uploaded ∧
    (processItem ⟨0, FetchOutcome.ok [80, 75], UploadOutcome.resp 200, UploadOutcome.resp 200⟩
      (CircuitBreaker.init 5 60) ⟨⟨2024, 1, 15⟩, "TJSP"⟩ [] 1000 false).2.1 =
      (CircuitBreaker.init 5 60).recordSuccess ∧
    (processItem ⟨0, FetchOutcome.ok [80, 75], UploadOutcome.resp 200, UploadOutcome.resp 200⟩
      (CircuitBreaker.init 5 60) ⟨⟨2024, 1, 15⟩, "TJSP"⟩ [] 1000 false).2.2 = [] ∧
    stateIsDone
      (processItem ⟨0, FetchOutcome.ok [80, 75], UploadOutcome.resp 200, UploadOutcome.resp 200⟩
        (CircuitBreaker.init 5 60) ⟨⟨2024, 1, 15⟩, "TJSP"⟩ [] 1000 false).2.2
      ⟨2024, 1, 15⟩ "TJSP" = false := by
  exact ⟨rfl, rfl, rfl, rfl⟩

/-- Claim C4 (code_bug): the breaker admits every probe while HALF_OPEN,
not at most one.  After five `record_failure` calls at instant 0 the
breaker is OPEN; at instant 60 (recovery timeout elapsed) the observed
state is HALF_OPEN and the first `allow_request` is admitted — and, with no
`record_success`/`record_failure` in between, a second `allow_request` is
admitted too (the code latches `_state = HALF_OPEN`, and `allow_request`
returns True whenever the observed state is HALF_OPEN). -/
theorem half_open_admits_second_probe :
    ((List.range 5).foldl (fun cb _ => CircuitBreaker.recordFailure cb 0)
        (CircuitBreaker.init 5 60)).observedState 60 = CircuitState.halfOpen ∧
    (((List.range 5).foldl (fun cb _ => CircuitBreaker.recordFailure cb 0)
        (CircuitBreaker.init 5 60)).allowRequest 60).1 = true ∧
    ((((List.range 5).foldl (fun cb _ => CircuitBreaker.recordFailure cb 0)
        (CircuitBreaker.init 5 60)).allowRequest 60).2.allowRequest 60).1 = true := by
  decide

/-- Claim C5 counterexample: with `max_retries = 3` and every attempt
answering a retriable 503, `request_with_retry` issues 4 wire attempts —
more than the claimed "at most 3 attempts in total". -/
theorem request_with_retry_makes_four_attempts :
    requestWithRetry (fun _ => HttpAttempt.resp 503) 3 false = (Except.ok 503, 4) ∧
    ¬ ((4 : Nat) ≤ 3) := by
  exact ⟨rfl, by omega⟩

/-- Claim C5 (amended): with the default `max_retries = 3`,
`request_with_retry` makes at most `max_retries + 1 = 4` attempts in
total; when every attempt yields a retriable status the last response is
returned as-is after exhaustion; and when the first three attempts are all
retried (retriable status, retried 400, or transport error) and the last
attempt raises a transport error, that error propagates to the caller. -/
theorem request_with_retry_bounds (oracle : Nat → HttpAttempt) (b : Bool) :
    (requestWithRetry oracle 3 b).2 ≤ 4 ∧
    (∀ s0 s1 s2 s3 : Nat,
      oracle 0 = HttpAttempt.resp s0 → oracle 1 = HttpAttempt.resp s1 →
      oracle 2 = HttpAttempt.resp s2 → oracle 3 = HttpAttempt.resp s3 →
      s0 ∈ RETRIABLE_STATUS_CODES → s1 ∈ RETRIABLE_STATUS_CODES →
      s2 ∈ RETRIABLE_STATUS_CODES →
      requestWithRetry oracle 3 b = (Except.ok s3, 4)) ∧
    ((∀ i, i < 3 →
        match oracle i with
        | HttpAttempt.resp s => s ∈ RETRIABLE_STATUS_CODES ∨ (b ∧ s = 400)
        | HttpAttempt.transportError => True) →
      oracle 3 = HttpAttempt.transportError →
      requestWithRetry oracle 3 b = (Except.error (), 4)) := by
  refine ⟨retryFrom_count_le oracle 3 b 4 0, ?_, ?_⟩
  · intro s0 s1 s2 s3 h0 h1 h2 h3 r0 r1 r2
    have e1 := retryFrom_step oracle 3 b 0 3 (by omega) (by rw [h0]; exact Or.inl r0)
    have e2 := retryFrom_step oracle 3 b 1 2 (by omega) (by rw [h1]; exact Or.inl r1)
    have e3 := retryFrom_step oracle 3 b 2 1 (by omega) (by rw [h2]; exact Or.inl r2)
    have e4 := retryFrom_last oracle 3 b 0
    rw [h3] at e4
    unfold requestWithRetry
    norm_num at e1 e2 e3 e4 ⊢
    rw [e1, e2, e3, e4]
  · intro hpre herr
    have e1 := retryFrom_step oracle 3 b 0 3 (by omega) (hpre 0 (by omega))
    have e2 := retryFrom_step oracle 3 b 1 2 (by omega) (hpre 1 (by omega))
    have e3 := retryFrom_step oracle 3 b 2 1 (by omega) (hpre 2 (by omega))
    have e4 := retryFrom_last oracle 3 b 0
    rw [herr] at e4
    unfold requestWithRetry
    norm_num at e1 e2 e3 e4 ⊢
    rw [e1, e2, e3, e4]

/-- Claim C5 witness: the amended theorem applied at two concrete oracles
(all attempts 503; all attempts transport errors). -/
theorem request_with_retry_bounds_witness :
    requestWithRetry (fun _ => HttpAttempt.resp 503) 3 false = (Except.ok 503, 4) ∧
    requestWithRetry (fun _ => HttpAttempt.transportError) 3 false =
      (Except.error (), 4) :=
  ⟨(request_with_retry_bounds (fun _ => HttpAttempt.resp 503) false).2.1
      503 503 503 503 rfl rfl rfl rfl (by decide) (by decide) (by decide),
   (request_with_retry_bounds (fun _ => HttpAttempt.transportError) false).2.2
      (fun _ _ => trivial) rfl⟩

/-- Claim C6 counterexample: a running (not stopped) tribunal with
`empty_streak = 5` and a stale cursor is advanced and `true` is returned,
but its streak stays 5 — not reset to 0 as the claim requires. -/
theorem ensure_cursor_keeps_streak_of_running_tribunal :
    (ensureCursorAtLeast [("TJX", { cursorDate := ⟨2024, 1, 1⟩, emptyStreak := 5 })]
      "TJX" ⟨2024, 6, 1⟩).2 = true ∧
    (assocGet (ensureCursorAtLeast
        [("TJX", { cursorDate := ⟨2024, 1, 1⟩, emptyStreak := 5 })]
        "TJX" ⟨2024, 6, 1⟩).1 "TJX").map TribunalProgress.emptyStreak = some 5 := by
  exact ⟨rfl, rfl⟩

/-- Claim C6 (amended): for a stored tribunal whose cursor strictly
predates `min_date`, `ensure_cursor_at_least` advances the cursor to
`min_date` and returns true; it additionally clears `stopped` and resets
`empty_streak` to 0 only when the tribunal was stopped (a running
tribunal's streak is left unchanged).  When the cursor is already at or
after `min_date` the record is unchanged and false is returned. -/
theorem ensure_cursor_at_least_spec (m : BackfillMap) (t : String) (d : Date)
    (p : TribunalProgress) (h : assocGet m t = some p) :
    (p.cursorDate.ltb d = true →
      ensureCursorAtLeast m t d =
        (assocSet m t
          (if p.stopped then
            { p with cursorDate := d, stopped := false, emptyStreak := 0 }
          else { p with cursorDate := d }), true)) ∧
    (p.cursorDate.ltb d = false → ensureCursorAtLeast m t d = (m, false)) := by
  refine ⟨fun hlt => ?_, fun hge => ?_⟩
  · simp only [ensureCursorAtLeast, h, hlt, if_true]
  · simp only [ensureCursorAtLeast, h, hge]
    simp

/-- Claim C6 witness: the amended theorem applied to the claim's own
scenario — a tribunal stopped at 2023-10-01 with streak 60 is ratcheted to
2024-06-01 with `stopped` cleared and streak 0 — and to an
already-up-to-date record, which is untouched. -/
theorem ensure_cursor_at_least_spec_witness :
    ensureCursorAtLeast
        [("TJSP", { cursorDate := ⟨2023, 10, 1⟩, emptyStreak := 60, stopped := true })]
        "TJSP" ⟨2024, 6, 1⟩ =
      ([("TJSP", { cursorDate := ⟨2024, 6, 1⟩, emptyStreak := 0, stopped := false })],
        true) ∧
    ensureCursorAtLeast
        [("TJSP", { cursorDate := ⟨2024, 6, 1⟩, emptyStreak := 60, stopped := true })]
        "TJSP" ⟨2024, 6, 1⟩ =
      ([("TJSP", { cursorDate := ⟨2024, 6, 1⟩, emptyStreak := 60, stopped := true })],
        false) :=
  ⟨(ensure_cursor_at_least_spec
      [("TJSP", { cursorDate := ⟨2023, 10, 1⟩, emptyStreak := 60, stopped := true })]
      "TJSP" ⟨2024, 6, 1⟩
      { cursorDate := ⟨2023, 10, 1⟩, emptyStreak := 60, stopped := true } rfl).1 rfl,
   (ensure_cursor_at_least_spec
      [("TJSP", { cursorDate := ⟨2024, 6, 1⟩, emptyStreak := 60, stopped := true })]
      "TJSP" ⟨2024, 6, 1⟩
      { cursorDate := ⟨2024, 6, 1⟩, emptyStreak := 60, stopped := true } rfl).2 rfl⟩

/-- Claim C7 (confirmed): starting from `empty_streak = 0` and
`stopped = false`, after any sequence of record_empty/record_hit/
record_error calls the streak equals the number of empties since the most
recent hit (errors leave it unchanged, a hit resets it); `stopped` holds
iff some prefix of the sequence drove the streak to the stop threshold 60;
and a `record_empty` that brings the streak to ≥ 60 sets `stopped` in the
same critical section and returns true. -/
theorem empty_streak_invariants (p : TribunalProgress) (es : List BfEvent)
    (h0 : p.emptyStreak = 0) (h1 : p.stopped = false) :
    (applyBfEvents p es).emptyStreak = (emptiesSinceLastHit es : Int) ∧
    ((applyBfEvents p es).stopped = true ↔
      ∃ n, 60 ≤ emptiesSinceLastHit (es.take n)) ∧
    (∀ (q : TribunalProgress) (now : String),
      STOP_THRESHOLD ≤ q.emptyStreak + 1 →
      (recordEmptyProgress q now).1.stopped = true ∧
        (recordEmptyProgress q now).2 = true) ∧
    (∀ (q : TribunalProgress) (d' : Date) (now : String),
      (recordEmptyProgress q now).1.emptyStreak = q.emptyStreak + 1 ∧
      (recordErrorProgress q now).emptyStreak = q.emptyStreak ∧
      (recordHitProgress q d' now).emptyStreak = 0) := by
  refine ⟨streak_eq p h0 es, stopped_iff p h0 h1 es, ?_, ?_⟩
  · intro q now h
    unfold recordEmptyProgress
    rw [if_pos h]
    exact ⟨rfl, rfl⟩
  · intro q d' now
    refine ⟨?_, rfl, rfl⟩
    unfold recordEmptyProgress
    dsimp only
    split <;> rfl

/-- Claim C7 witness: the invariants evaluated on a fresh progress record
and the concrete sequence empty, empty, hit, error, empty — final streak 1
(one empty since the last hit). -/
theorem empty_streak_invariants_witness :
    ({ cursorDate := ⟨2024, 6, 1⟩ } : TribunalProgress).emptyStreak = 0 ∧
    ({ cursorDate := ⟨2024, 6, 1⟩ } : TribunalProgress).stopped = false ∧
    (applyBfEvents { cursorDate := ⟨2024, 6, 1⟩ }
      [BfEvent.empty "t1", BfEvent.empty "t2", BfEvent.hit ⟨2024, 5, 30⟩ "t3",
       BfEvent.error "t4", BfEvent.empty "t5"]).emptyStreak =
      (emptiesSinceLastHit
        [BfEvent.empty "t1", BfEvent.empty "t2", BfEvent.hit ⟨2024, 5, 30⟩ "t3",
         BfEvent.error "t4", BfEvent.empty "t5"] : Int) :=
  ⟨rfl, rfl, (empty_streak_invariants _ _ rfl rfl).1⟩

/-- Claim C8 counterexample: for body bytes [0x50, 0x4b] the upload
request's Content-MD5 header is the lowercase hex MD5 digest, which is not
the base64 encoding of that digest; and when the archive answers a
retriable 503 on every attempt the retry layer issues 4 PUTs, not exactly
one. -/
theorem content_md5_is_hex_not_base64 :
    assocGet (uploadZipRequest ⟨2024, 1, 15⟩ "TJSP" [80, 75] "LOW k:s").headers
        "Content-MD5" = some (md5HexDigest [80, 75]) ∧
    md5HexDigest [80, 75] ≠ base64Encode (md5 [80, 75]) ∧
    (uploadZipWire (fun _ => HttpAttempt.resp 503) ⟨2024, 1, 15⟩ "TJSP" [80, 75]
        "LOW k:s").2.2 = 4 := by
  refine ⟨rfl, by decide, rfl⟩

/-- Claim C8 (amended): for every ZIP upload of (D, T) with body B whose
first PUT attempt draws a non-retriable status, exactly one PUT is issued,
its URL is `https://s3.us.archive.org/djen-D/djen-D-T.zip`, and its
Content-MD5 header equals the lowercase hex encoding of the MD5 digest of
B (not the base64 encoding the claim states). -/
theorem upload_zip_single_put_hex_md5 (d : Date) (t : String) (content : List Nat)
    (auth : String) (oracle : Nat → HttpAttempt) (s : Nat)
    (h1 : oracle 0 = HttpAttempt.resp s) (h2 : s ∉ RETRIABLE_STATUS_CODES) :
    (uploadZipWire oracle d t content auth).1.method = "PUT" ∧
    (uploadZipWire oracle d t content auth).1.url =
      "https://s3.us.archive.org/djen-" ++ d.isoformat ++ "/djen-" ++
        d.isoformat ++ "-" ++ t ++ ".zip" ∧
    assocGet (uploadZipWire oracle d t content auth).1.headers "Content-MD5" =
      some (bytesToHex (md5 content)) ∧
    (uploadZipWire oracle d t content auth).2.2 = 1 ∧
    (uploadZipWire oracle d t content auth).2.1 = Except.ok s := by
  have e := retryFrom_succ oracle 3 false 0 3
  simp only [h1] at e
  rw [if_neg h2] at e
  simp only [Bool.false_eq_true, false_and, if_false] at e
  norm_num at e
  refine ⟨rfl, rfl, ?_, ?_, ?_⟩
  · show assocGet (buildUploadHeaders d (md5HexDigest content) auth) "Content-MD5" = _
    simp [buildUploadHeaders, assocGet, md5HexDigest]
  · show (requestWithRetryFrom oracle 3 false 0 4).2 = 1
    rw [e]
  · show (requestWithRetryFrom oracle 3 false 0 4).1 = Except.ok s
    rw [e]

/-- Claim C8 witness: the amended theorem applied to a 200-accepting
archive for (2024-01-15, TJSP) with body [0x50, 0x4b]. -/
theorem upload_zip_single_put_hex_md5_witness :
    (uploadZipWire (fun _ => HttpAttempt.resp 200) ⟨2024, 1, 15⟩ "TJSP" [80, 75]
        "LOW k:s").1.method = "PUT" ∧
    (uploadZipWire (fun _ => HttpAttempt.resp 200) ⟨2024, 1, 15⟩ "TJSP" [80, 75]
        "LOW k:s").2.2 = 1 :=
  ⟨(upload_zip_single_put_hex_md5 ⟨2024, 1, 15⟩ "TJSP" [80, 75] "LOW k:s"
      (fun _ => HttpAttempt.resp 200) 200 rfl (by decide)).1,
   (upload_zip_single_put_hex_md5 ⟨2024, 1, 15⟩ "TJSP" [80, 75] "LOW k:s"
      (fun _ => HttpAttempt.resp 200) 200 rfl (by decide)).2.2.2.1⟩

/-- Claim C9 (confirmed): `record_success` unconditionally closes the
circuit, zeroes the consecutive-failure count and restores the base
recovery timeout, whatever the current state — in particular also when the
breaker is OPEN with its recovery timeout not yet elapsed (the state and
clock fields are not consulted). -/
theorem record_success_unconditional_reset (cb : CircuitBreaker) :
    cb.recordSuccess.state = CircuitState.closed ∧
    cb.recordSuccess.failureCount = 0 ∧
    cb.recordSuccess.recoveryTimeout = cb.baseRecovery ∧
    cb.recordSuccess.threshold = cb.threshold ∧
    cb.recordSuccess.baseRecovery = cb.baseRecovery ∧
    cb.recordSuccess.openedAt = cb.openedAt := by
  simp [CircuitBreaker.recordSuccess]

/-- Claim C10 counterexample: a dict payload whose `empty_streak` is the
float `Infinity` (which `json.loads` accepts) makes
`BackfillState.from_dict` raise: `int(float("inf"))` raises
`OverflowError`, which the `except (ValueError, TypeError)` clause does
not catch — so `from_dict` does not "never raise on a dict payload". -/
theorem from_dict_overflow_on_infinite_streak :
    backfillStateFromDict
      [("tribunals", PyVal.dict
        [("TJAA", PyVal.dict [("cursor_date", PyVal.str "2024-01-01"),
                              ("empty_streak", PyVal.float PyFloat.inf)])])] =
      Except.error PyExc.overflowError := by
  rfl

/-- Claim C10 (amended): on any dict payload whose entries do not carry an
infinite-float `empty_streak` (the one uncaught case, an `OverflowError`),
`BackfillState.from_dict` returns normally, skipping each individually
malformed entry (`ValueError`/`TypeError`) and retaining exactly the
well-formed ones. -/
theorem from_dict_skips_malformed_entries (data : List (String × PyVal))
    (t : List (String × PyVal))
    (ht : (assocGet data "tribunals").getD PyVal.none = PyVal.dict t)
    (hfin : ∀ cr ∈ t, ∀ d, cr.2 = PyVal.dict d →
      tribunalProgressFromDict d ≠ Except.error PyExc.overflowError) :
    backfillStateFromDict data = Except.ok (goodBackfillEntries t) := by
  unfold backfillStateFromDict goodBackfillEntries
  rw [ht]
  exact backfillEntries_eq t hfin []

-- Witness for C10 is below; its payload mixes one malformed entry
-- (missing cursor_date, skipped) with one well-formed entry (retained).

/-- Claim C10 witness: a payload with a malformed entry ("BAD", missing
`cursor_date`) and a well-formed one ("TJSP") parses to exactly the
well-formed entry. -/
theorem from_dict_skips_malformed_entries_witness :
    backfillStateFromDict
      [("tribunals", PyVal.dict
        [("BAD", PyVal.dict [("empty_streak", PyVal.int 3)]),
         ("TJSP", PyVal.dict
           [("cursor_date", PyVal.str "2024-06-01"),
            ("empty_streak", PyVal.int 2),
            ("stopped", PyVal.bool false)])])] =
      Except.ok [("TJSP",
        { cursorDate := ⟨2024, 6, 1⟩, emptyStreak := 2, stopped := false })] :=
  (from_dict_skips_malformed_entries
    [("tribunals", PyVal.dict
      [("BAD", PyVal.dict [("empty_streak", PyVal.int 3)]),
       ("TJSP", PyVal.dict
         [("cursor_date", PyVal.str "2024-06-01"),
          ("empty_streak", PyVal.int 2),
          ("stopped", PyVal.bool false)])])]
    [("BAD", PyVal.dict [("empty_streak", PyVal.int 3)]),
     ("TJSP", PyVal.dict
       [("cursor_date", PyVal.str "2024-06-01"),
        ("empty_streak", PyVal.int 2),
        ("stopped", PyVal.bool false)])]
    rfl
    (by
      intro cr hcr d hd
      simp only [List.mem_cons, List.not_mem_nil, or_false] at hcr
      rcases hcr with h | h
      · subst h
        cases hd
        intro hcon
        have herr : tribunalProgressFromDict [("empty_streak", PyVal.int 3)] =
            Except.error PyExc.valueError := rfl
        exact absurd (herr.symm.trans hcon) (by decide)
      · subst h
        cases hd
        intro hcon
        have hok : tribunalProgressFromDict
            [("cursor_date", PyVal.str "2024-06-01"),
             ("empty_streak", PyVal.int 2),
             ("stopped", PyVal.bool false)] =
            Except.ok ⟨⟨2024, 6, 1⟩, 2, false, Option.none, Option.none, Option.none⟩ :=
          rfl
        exact absurd (hok.symm.trans hcon) (by decide))).trans rfl
